import Mathlib

/-!
Verification of the in-enclave vectored exception dispatch interface of
openenclave, embedded from `include/openenclave/bits/exception.h`.

The header defines the handler verdict codes, the closed enumeration of
exception codes, the hardware/software exception flags, the SGX page-fault
error-code bit masks, and the register-context / exception-record layouts.
The Exception Record Builder and Dispatcher bodies are not part of the
examined sources; where a property depends on them, a definition modelled
from the specification is used and marked as such in its doc comment.
-/

/-! ## Verdict codes (handler return contract) -/

/-- Header macro `#define OE_EXCEPTION_CONTINUE_SEARCH 0x0` -/
def OE_EXCEPTION_CONTINUE_SEARCH : Nat := 0x0

/-- Header macro `#define OE_EXCEPTION_CONTINUE_EXECUTION 0xFFFFFFFF` -/
def OE_EXCEPTION_CONTINUE_EXECUTION : Nat := 0xFFFFFFFF

/-- Header macro `#define OE_EXCEPTION_ABORT_EXECUTION 0xFFFFFFF0` -/
def OE_EXCEPTION_ABORT_EXECUTION : Nat := 0xFFFFFFF0

/-- The bound of the C `uint64_t` type, the declared return type of
`oe_vectored_exception_handler_t`. -/
def UINT64_BOUND : Nat := 2 ^ 64

/-! ## Exception codes (closed enumeration) -/

/-- Header macro `#define OE_EXCEPTION_DIVIDE_BY_ZERO 0x0` -/
def OE_EXCEPTION_DIVIDE_BY_ZERO : Nat := 0x0

/-- Header macro `#define OE_EXCEPTION_BREAKPOINT 0x1` -/
def OE_EXCEPTION_BREAKPOINT : Nat := 0x1

/-- Header macro `#define OE_EXCEPTION_BOUND_OUT_OF_RANGE 0x2` -/
def OE_EXCEPTION_BOUND_OUT_OF_RANGE : Nat := 0x2

/-- Header macro `#define OE_EXCEPTION_ILLEGAL_INSTRUCTION 0x3` -/
def OE_EXCEPTION_ILLEGAL_INSTRUCTION : Nat := 0x3

/-- Header macro `#define OE_EXCEPTION_ACCESS_VIOLATION 0x4` -/
def OE_EXCEPTION_ACCESS_VIOLATION : Nat := 0x4

/-- Header macro `#define OE_EXCEPTION_PAGE_FAULT 0x5` -/
def OE_EXCEPTION_PAGE_FAULT : Nat := 0x5

/-- Header macro `#define OE_EXCEPTION_X87_FLOAT_POINT 0x6` -/
def OE_EXCEPTION_X87_FLOAT_POINT : Nat := 0x6

/-- Header macro `#define OE_EXCEPTION_MISALIGNMENT 0x7` -/
def OE_EXCEPTION_MISALIGNMENT : Nat := 0x7

/-- Header macro `#define OE_EXCEPTION_SIMD_FLOAT_POINT 0x8` -/
def OE_EXCEPTION_SIMD_FLOAT_POINT : Nat := 0x8

/-- Header macro `#define OE_EXCEPTION_UNKNOWN 0xFFFFFFFF` -/
def OE_EXCEPTION_UNKNOWN : Nat := 0xFFFFFFFF

/-- The closed enumeration of exception codes defined in the header. -/
def oe_exception_code_set : List Nat :=
  [OE_EXCEPTION_DIVIDE_BY_ZERO, OE_EXCEPTION_BREAKPOINT,
   OE_EXCEPTION_BOUND_OUT_OF_RANGE, OE_EXCEPTION_ILLEGAL_INSTRUCTION,
   OE_EXCEPTION_ACCESS_VIOLATION, OE_EXCEPTION_PAGE_FAULT,
   OE_EXCEPTION_X87_FLOAT_POINT, OE_EXCEPTION_MISALIGNMENT,
   OE_EXCEPTION_SIMD_FLOAT_POINT, OE_EXCEPTION_UNKNOWN]

/-! ## Exception flags -/

/-- Header macro `#define OE_EXCEPTION_FLAGS_HARDWARE 0x1` -/
def OE_EXCEPTION_FLAGS_HARDWARE : Nat := 0x1

/-- Header macro `#define OE_EXCEPTION_FLAGS_SOFTWARE 0x2` -/
def OE_EXCEPTION_FLAGS_SOFTWARE : Nat := 0x2

/-! ## SGX page-fault error-code bit masks -/

/-- Header macro `#define OE_SGX_PAGE_FAULT_P_FLAG 0x1` -/
def OE_SGX_PAGE_FAULT_P_FLAG : Nat := 0x1

/-- Header macro `#define OE_SGX_PAGE_FAULT_WR_FLAG 0x2` -/
def OE_SGX_PAGE_FAULT_WR_FLAG : Nat := 0x2

/-- Header macro `#define OE_SGX_PAGE_FAULT_US_FLAG 0x4` -/
def OE_SGX_PAGE_FAULT_US_FLAG : Nat := 0x4

/-- Header macro `#define OE_SGX_PAGE_FAULT_RSVD 0x8` -/
def OE_SGX_PAGE_FAULT_RSVD : Nat := 0x8

/-- Header macro `#define OE_SGX_PAGE_FAULT_ID_FLAG 0x10` -/
def OE_SGX_PAGE_FAULT_ID_FLAG : Nat := 0x10

/-- Header macro `#define OE_SGX_PAGE_FAULT_PK_FLAG 0x20` -/
def OE_SGX_PAGE_FAULT_PK_FLAG : Nat := 0x20

/-- Header macro `#define OE_SGX_PAGE_FAULT_SGX_FLAG 0x8000` -/
def OE_SGX_PAGE_FAULT_SGX_FLAG : Nat := 0x8000

/-- Test a mask flag of the `error_code` field, as C code does with
`error_code & FLAG`. -/
def test_flag (ec flag : Nat) : Bool := ec &&& flag != 0

/-- The bitfield decoding view of the extended-fault `error_code`
(`uint32_t`), one Boolean per mask defined in the header. -/
structure ErrorCodeBits where
  p : Bool
  wr : Bool
  us : Bool
  rsvd : Bool
  id : Bool
  pk : Bool
  sgx : Bool
deriving Repr, DecidableEq

/-- Decode an `error_code` value through the masks of the header. -/
def decode_error_code (ec : Nat) : ErrorCodeBits :=
  { p := test_flag ec OE_SGX_PAGE_FAULT_P_FLAG
    wr := test_flag ec OE_SGX_PAGE_FAULT_WR_FLAG
    us := test_flag ec OE_SGX_PAGE_FAULT_US_FLAG
    rsvd := test_flag ec OE_SGX_PAGE_FAULT_RSVD
    id := test_flag ec OE_SGX_PAGE_FAULT_ID_FLAG
    pk := test_flag ec OE_SGX_PAGE_FAULT_PK_FLAG
    sgx := test_flag ec OE_SGX_PAGE_FAULT_SGX_FLAG }

/-- Testing a power-of-two mask agrees with `Nat.testBit`. -/
theorem test_flag_two_pow (ec i : Nat) :
    test_flag ec (2 ^ i) = ec.testBit i := by
  unfold test_flag
  rw [Nat.and_two_pow]
  cases h : ec.testBit i <;> simp [h, Nat.pos_iff_ne_zero]

/-- C1: a handler's return value is an unsigned 64-bit integer
(`uint64_t`), and the three verdict codes have exactly the values
continue-search = 0x0, continue-execution = 0xFFFFFFFF and
abort-execution = 0xFFFFFFF0. -/
theorem C1_verdict_codes :
    OE_EXCEPTION_CONTINUE_SEARCH = 0x0 ∧
    OE_EXCEPTION_CONTINUE_EXECUTION = 0xFFFFFFFF ∧
    OE_EXCEPTION_ABORT_EXECUTION = 0xFFFFFFF0 ∧
    OE_EXCEPTION_CONTINUE_SEARCH < UINT64_BOUND ∧
    OE_EXCEPTION_CONTINUE_EXECUTION < UINT64_BOUND ∧
    OE_EXCEPTION_ABORT_EXECUTION < UINT64_BOUND := by
  refine ⟨rfl, rfl, rfl, ?_, ?_, ?_⟩ <;> decide

/-- C4: the extended-fault error code decodes bit-positionally: bit0 is
the protection-violation mask 0x1, bit1 the write mask 0x2, bit2 the
user-mode mask 0x4, bit3 the reserved-bit mask 0x8, bit4 the
instruction-fetch mask 0x10, bit5 the protection-key mask 0x20 and bit15
the SGX isolation-boundary mask 0x8000. -/
theorem C4_error_code_bits (ec : Nat) :
    OE_SGX_PAGE_FAULT_P_FLAG = 0x1 ∧
    OE_SGX_PAGE_FAULT_WR_FLAG = 0x2 ∧
    OE_SGX_PAGE_FAULT_US_FLAG = 0x4 ∧
    OE_SGX_PAGE_FAULT_RSVD = 0x8 ∧
    OE_SGX_PAGE_FAULT_ID_FLAG = 0x10 ∧
    OE_SGX_PAGE_FAULT_PK_FLAG = 0x20 ∧
    OE_SGX_PAGE_FAULT_SGX_FLAG = 0x8000 ∧
    (decode_error_code ec).p = ec.testBit 0 ∧
    (decode_error_code ec).wr = ec.testBit 1 ∧
    (decode_error_code ec).us = ec.testBit 2 ∧
    (decode_error_code ec).rsvd = ec.testBit 3 ∧
    (decode_error_code ec).id = ec.testBit 4 ∧
    (decode_error_code ec).pk = ec.testBit 5 ∧
    (decode_error_code ec).sgx = ec.testBit 15 := by
  refine ⟨rfl, rfl, rfl, rfl, rfl, rfl, rfl, ?_, ?_, ?_, ?_, ?_, ?_, ?_⟩
  · exact test_flag_two_pow ec 0
  · exact test_flag_two_pow ec 1
  · exact test_flag_two_pow ec 2
  · exact test_flag_two_pow ec 3
  · exact test_flag_two_pow ec 4
  · exact test_flag_two_pow ec 5
  · exact test_flag_two_pow ec 15

/-- C10: the exception-code value for unknown equals the
continue-execution verdict constant; the two constant spaces collide at
0xFFFFFFFF. -/
theorem C10_unknown_collides_with_continue_execution :
    OE_EXCEPTION_UNKNOWN = OE_EXCEPTION_CONTINUE_EXECUTION ∧
    OE_EXCEPTION_UNKNOWN = 0xFFFFFFFF := ⟨rfl, rfl⟩

/-! ## Data structures of the header -/

/-- Alignment required by `OE_ALIGNED(16)` on `struct _oe_basic_xstate`. -/
def OE_BASIC_XSTATE_ALIGNMENT : Nat := 16

/-- Embeds `struct _oe_basic_xstate \x7b uint8_t blob[512]; \x7d OE_ALIGNED(16)`:
a fixed array of 512 bytes holding X87 and SSE data.  The fixed array
size of the C type is carried as a bundled length fact; bytes are
`Fin 256`, the value range of `uint8_t`. -/
structure oe_basic_xstate where
  blob : List (Fin 256)
  blob_size : blob.length = 512

/-- Embeds `struct _oe_context`: the exception flags word, the sixteen
general-purpose integer registers, `rip`, the `mxcsr` SSE control word
and the basic XSTATE blob, exactly as laid out in the header.  Machine
words are `Nat`; no arithmetic is performed on them here. -/
structure oe_context where
  flags : Nat
  rax : Nat
  rbx : Nat
  rcx : Nat
  rdx : Nat
  rbp : Nat
  rsp : Nat
  rdi : Nat
  rsi : Nat
  r8 : Nat
  r9 : Nat
  r10 : Nat
  r11 : Nat
  r12 : Nat
  r13 : Nat
  r14 : Nat
  r15 : Nat
  rip : Nat
  mxcsr : Nat
  basic_xstate : oe_basic_xstate

/-- The general-purpose integer registers of an `oe_context`, in the
order of the struct fields (excluding `rip`, which the header lists
after them). -/
def oe_context.gp_registers (c : oe_context) : List Nat :=
  [c.rax, c.rbx, c.rcx, c.rdx, c.rbp, c.rsp, c.rdi, c.rsi,
   c.r8, c.r9, c.r10, c.r11, c.r12, c.r13, c.r14, c.r15]

/-- Embeds `struct _oe_exception_record`: exception code, flags, faulting
instruction address, the PF/GP extended-fault payload, and the pointer
to the `oe_context`.  The PF/GP pair (`faulting_address`, `error_code`)
is modelled as a single optional payload, reflecting the builder
contract that it is populated as a whole or absent as a whole; the
`context` pointer is modelled as an address into a context heap. -/
structure oe_exception_record where
  code : Nat
  flags : Nat
  address : Nat
  ext : Option (Nat × Nat)
  context : Nat

/-! ## Exception Record Builder (spec-modelled) -/

/-- The raw trap payload handed to the builder by the trap-entry stub:
exception code, flags, faulting address and — when the platform produced
it — the raw PF/GP data. -/
structure RawTrapPayload where
  code : Nat
  flags : Nat
  address : Nat
  faulting_address : Nat
  error_code : Nat

/-- Modelled from the spec: the builder normalizes the raw exception
code — a value outside the closed enumeration becomes
`OE_EXCEPTION_UNKNOWN`, never an arbitrary passthrough integer.
The builder body is not among the examined sources. -/
def normalize_exception_code (raw : Nat) : Nat :=
  if raw ∈ oe_exception_code_set then raw else OE_EXCEPTION_UNKNOWN

/-- A PF/GP exception condition: page fault, or the general-protection
condition which the enumeration renders as access violation. -/
def is_pf_gp (code : Nat) : Bool :=
  code == OE_EXCEPTION_PAGE_FAULT || code == OE_EXCEPTION_ACCESS_VIOLATION

/-- Modelled from the spec: the extended-fault payload is included only
if the platform capability is present (SGX2 with MISCSELECT[0]) and the
enclave opted in (CapturePFGPExceptions=1) and the exception is a PF/GP
condition; otherwise it is entirely absent.  The builder body is not
among the examined sources. -/
def build_extended_payload (capability opted_in : Bool)
    (raw : RawTrapPayload) : Option (Nat × Nat) :=
  if capability && opted_in && is_pf_gp raw.code then
    some (raw.faulting_address, raw.error_code)
  else
    none

/-- Modelled from the spec: flags validation — the flags word is exactly
one of `OE_EXCEPTION_FLAGS_HARDWARE` and `OE_EXCEPTION_FLAGS_SOFTWARE`;
combining them, or neither, is disallowed.  The builder body is not
among the examined sources. -/
def valid_exception_flags (f : Nat) : Bool :=
  f == OE_EXCEPTION_FLAGS_HARDWARE || f == OE_EXCEPTION_FLAGS_SOFTWARE

/-- Modelled from the spec: the Exception Record Builder turns a raw
trap payload into a validated record or fails closed (`none`).  It
normalizes the code, validates the flags, decides the extended payload
at build time and stores the address of the single register context.
The builder body is not among the examined sources. -/
def build_record (capability opted_in : Bool) (raw : RawTrapPayload)
    (ctxAddr : Nat) : Option oe_exception_record :=
  if valid_exception_flags raw.flags then
    some { code := normalize_exception_code raw.code
           flags := raw.flags
           address := raw.address
           ext := build_extended_payload capability opted_in raw
           context := ctxAddr }
  else
    none

/-- Modelled from the spec: the builder enforces the fixed 512-byte size
and the 16-byte alignment of the raw XSTATE buffer before handing the
blob downstream, failing closed on a wrong size or a misaligned buffer.
The builder body is not among the examined sources. -/
def validate_xstate_blob (bytes : List (Fin 256)) (addr : Nat) :
    Option oe_basic_xstate :=
  if h : bytes.length = 512 ∧ addr % OE_BASIC_XSTATE_ALIGNMENT = 0 then
    some ⟨bytes, h.1⟩
  else
    none

/-! ## Claims on the builder -/

/-- C2: for every raw trap payload, the exception code of the built
record is a member of the closed enumeration, and any raw code outside
the enumeration is normalized to unknown rather than passed through. -/
theorem C2_code_normalized (capability opted_in : Bool)
    (raw : RawTrapPayload) (a : Nat) (r : oe_exception_record)
    (h : build_record capability opted_in raw a = some r) :
    r.code ∈ oe_exception_code_set ∧
    (raw.code ∉ oe_exception_code_set → r.code = OE_EXCEPTION_UNKNOWN) := by
  unfold build_record at h
  split at h
  · simp only [Option.some.injEq] at h
    subst h
    constructor
    · show normalize_exception_code raw.code ∈ oe_exception_code_set
      unfold normalize_exception_code
      split
      · assumption
      · simp [oe_exception_code_set]
    · intro hn
      show normalize_exception_code raw.code = OE_EXCEPTION_UNKNOWN
      unfold normalize_exception_code
      split
      · exact absurd (by assumption) hn
      · rfl
  · exact absurd h (by simp)

/-- Witness for C2 at a concrete out-of-range code. -/
theorem C2_code_normalized_witness :
    build_record true true ⟨0x1234, 0x1, 0x40, 0, 0⟩ 7 =
      some ⟨OE_EXCEPTION_UNKNOWN, 0x1, 0x40, none, 7⟩ ∧
    (⟨OE_EXCEPTION_UNKNOWN, 0x1, 0x40, none, 7⟩ :
        oe_exception_record).code ∈ oe_exception_code_set :=
  ⟨rfl, (C2_code_normalized true true ⟨0x1234, 0x1, 0x40, 0, 0⟩ 7
      ⟨OE_EXCEPTION_UNKNOWN, 0x1, 0x40, none, 7⟩ rfl).1⟩

/-- C3: the extended-fault payload of a built record is fully populated
or entirely absent, never partially filled; when the platform capability
is absent or the enclave did not opt in, it is absent for every input,
also for PF/GP payloads that carry data. -/
theorem C3_ext_payload_all_or_nothing (capability opted_in : Bool)
    (raw : RawTrapPayload) (a : Nat) (r : oe_exception_record)
    (h : build_record capability opted_in raw a = some r) :
    (r.ext = none ∨ r.ext = some (raw.faulting_address, raw.error_code)) ∧
    ((capability = false ∨ opted_in = false) → r.ext = none) := by
  unfold build_record at h
  split at h
  · simp only [Option.some.injEq] at h
    subst h
    constructor
    · show build_extended_payload capability opted_in raw = none ∨ _
      unfold build_extended_payload
      split
      · right; rfl
      · left; rfl
    · intro hc
      show build_extended_payload capability opted_in raw = none
      unfold build_extended_payload
      rcases hc with hc | hc <;> subst hc <;> simp
  · exact absurd h (by simp)

/-- Witness for C3: capability absent, page-fault payload carrying data. -/
theorem C3_ext_payload_all_or_nothing_witness :
    build_record false true ⟨0x5, 0x1, 0x10, 0xdead, 0x6⟩ 2 =
      some ⟨OE_EXCEPTION_PAGE_FAULT, 0x1, 0x10, none, 2⟩ ∧
    (⟨OE_EXCEPTION_PAGE_FAULT, 0x1, 0x10, none, 2⟩ :
        oe_exception_record).ext = none :=
  ⟨rfl, (C3_ext_payload_all_or_nothing false true ⟨0x5, 0x1, 0x10, 0xdead, 0x6⟩
      2 ⟨OE_EXCEPTION_PAGE_FAULT, 0x1, 0x10, none, 2⟩ rfl).2 (Or.inl rfl)⟩

/-- C5: a raw payload with code 0x5 (page fault), hardware flags,
capability present and opted in, and error code 0x6 builds a record
whose payload is present, and the decoded bits show write = true,
user-mode = true and protection-violation (present) = false. -/
theorem C5_page_fault_scenario :
    build_record true true
        ⟨OE_EXCEPTION_PAGE_FAULT, OE_EXCEPTION_FLAGS_HARDWARE,
          0x1000, 0x2000, 0x6⟩ 3 =
      some ⟨OE_EXCEPTION_PAGE_FAULT, OE_EXCEPTION_FLAGS_HARDWARE,
              0x1000, some (0x2000, 0x6), 3⟩ ∧
    (decode_error_code 0x6).wr = true ∧
    (decode_error_code 0x6).us = true ∧
    (decode_error_code 0x6).p = false :=
  ⟨rfl, rfl, rfl, rfl⟩

/-- C6: the basic XSTATE blob of every register context is exactly 512
bytes, the required alignment is 16 bytes, and the builder-side
validation hands a blob downstream only when the buffer has exactly 512
bytes and a 16-byte-aligned address, copying it unchanged. -/
theorem C6_xstate_blob_size_alignment (bytes : List (Fin 256)) (addr : Nat)
    (x : oe_basic_xstate)
    (h : validate_xstate_blob bytes addr = some x) :
    (∀ c : oe_context, c.basic_xstate.blob.length = 512) ∧
    OE_BASIC_XSTATE_ALIGNMENT = 16 ∧
    bytes.length = 512 ∧
    addr % OE_BASIC_XSTATE_ALIGNMENT = 0 ∧
    x.blob = bytes := by
  unfold validate_xstate_blob at h
  split at h
  · simp only [Option.some.injEq] at h
    subst h
    exact ⟨fun c => c.basic_xstate.blob_size, rfl,
      (by assumption : _ ∧ _).1, (by assumption : _ ∧ _).2, rfl⟩
  · exact absurd h (by simp)

set_option maxRecDepth 10000 in
/-- Witness for C6 at a 512-byte zero buffer with an aligned address. -/
theorem C6_xstate_blob_size_alignment_witness :
    validate_xstate_blob (List.replicate 512 (0 : Fin 256)) 32 =
      some ⟨List.replicate 512 (0 : Fin 256), by simp⟩ ∧
    (List.replicate 512 (0 : Fin 256)).length = 512 ∧
    32 % OE_BASIC_XSTATE_ALIGNMENT = 0 :=
  ⟨by simp [validate_xstate_blob, OE_BASIC_XSTATE_ALIGNMENT],
   (C6_xstate_blob_size_alignment (List.replicate 512 (0 : Fin 256)) 32
       ⟨List.replicate 512 (0 : Fin 256), by simp⟩
       (by simp [validate_xstate_blob, OE_BASIC_XSTATE_ALIGNMENT])).2.2.1,
   (C6_xstate_blob_size_alignment (List.replicate 512 (0 : Fin 256)) 32
       ⟨List.replicate 512 (0 : Fin 256), by simp⟩
       (by simp [validate_xstate_blob, OE_BASIC_XSTATE_ALIGNMENT])).2.2.2.1⟩

/-- C7: the flags word has hardware = 0x1 and software = 0x2; a built
record's flags have exactly one of the two bits set, and a payload with
both or neither bit set is rejected by the builder. -/
theorem C7_exception_flags (capability opted_in : Bool)
    (raw : RawTrapPayload) (a : Nat) :
    OE_EXCEPTION_FLAGS_HARDWARE = 0x1 ∧
    OE_EXCEPTION_FLAGS_SOFTWARE = 0x2 ∧
    (∀ r, build_record capability opted_in raw a = some r →
      r.flags.testBit 0 ≠ r.flags.testBit 1) ∧
    (raw.flags.testBit 0 = raw.flags.testBit 1 →
      build_record capability opted_in raw a = none) := by
  refine ⟨rfl, rfl, ?_, ?_⟩
  · intro r h
    unfold build_record at h
    split at h
    · simp only [Option.some.injEq] at h
      subst h
      show raw.flags.testBit 0 ≠ raw.flags.testBit 1
      have hv : raw.flags = OE_EXCEPTION_FLAGS_HARDWARE ∨
          raw.flags = OE_EXCEPTION_FLAGS_SOFTWARE := by
        have := (by assumption : valid_exception_flags raw.flags = true)
        unfold valid_exception_flags at this
        simpa using this
      rcases hv with hv | hv <;> rw [hv] <;> decide
    · exact absurd h (by simp)
  · intro hb
    unfold build_record
    have hv : valid_exception_flags raw.flags = false := by
      unfold valid_exception_flags
      simp only [Bool.or_eq_false_iff, beq_eq_false_iff_ne, ne_eq]
      constructor
      · intro hf
        rw [hf] at hb
        exact absurd hb (by decide)
      · intro hf
        rw [hf] at hb
        exact absurd hb (by decide)
    rw [hv]
    rfl

/-- Witness for C7: flags 0x3 (both bits) is rejected. -/
theorem C7_exception_flags_witness :
    (0x3 : Nat).testBit 0 = (0x3 : Nat).testBit 1 ∧
    build_record true true ⟨0x0, 0x3, 0, 0, 0⟩ 0 = none :=
  ⟨by decide,
   (C7_exception_flags true true ⟨0x0, 0x3, 0, 0, 0⟩ 0).2.2.2 (by decide)⟩

/-- C8: the register context consists of exactly sixteen general-purpose
integer registers plus the instruction pointer, an SSE control word, the
512-byte 16-byte-aligned basic-xstate blob, and a flags word whose
hardware and software values are distinct. -/
theorem C8_register_context_shape (c : oe_context) :
    c.gp_registers.length = 16 ∧
    c.gp_registers =
      [c.rax, c.rbx, c.rcx, c.rdx, c.rbp, c.rsp, c.rdi, c.rsi,
       c.r8, c.r9, c.r10, c.r11, c.r12, c.r13, c.r14, c.r15] ∧
    c.basic_xstate.blob.length = 512 ∧
    OE_BASIC_XSTATE_ALIGNMENT = 16 ∧
    OE_EXCEPTION_FLAGS_HARDWARE ≠ OE_EXCEPTION_FLAGS_SOFTWARE :=
  ⟨rfl, rfl, c.basic_xstate.blob_size, rfl, by decide⟩

/-! ## Handler invocation and the context reference (spec-modelled) -/

/-- Modelled from the spec: an installed vectored exception handler.  Per
`oe_vectored_exception_handler_t` it receives the built record; the
record fields code, flags and addresses are read, while the register
context reached through the record's `context` pointer may be repaired,
so a handler is a function from the record and the referenced context to
the `uint64_t` verdict and the possibly modified context. -/
def Handler : Type :=
  oe_exception_record → oe_context → Nat × oe_context

/-- A store of register contexts indexed by address; the `context`
pointer field of `oe_exception_record` points into it. -/
def ContextHeap : Type := Nat → oe_context

/-- Update of the context stored at one address. -/
def heap_update (hp : ContextHeap) (a : Nat) (c : oe_context) :
    ContextHeap :=
  fun x => if x = a then c else hp x

/-- Outcome of invoking one handler on a built record: resume with a
restored context, keep searching, or abort. -/
inductive DispatchOutcome where
  | resume (c : oe_context) (hp : ContextHeap)
  | continueSearch (hp : ContextHeap)
  | abortExecution (hp : ContextHeap)

/-- The context store after an outcome. -/
def DispatchOutcome.heap : DispatchOutcome → ContextHeap
  | .resume _ hp => hp
  | .continueSearch hp => hp
  | .abortExecution hp => hp

/-- Modelled from the spec: the Dispatcher invokes a handler with a
reference to the built record; the handler reads the record and mutates
only the single context the record's `context` pointer designates; on a
continue-execution verdict the dispatcher restores the possibly
handler-modified context.  The dispatcher body is not among the examined
sources. -/
def invoke_handler (h : Handler) (hp : ContextHeap)
    (r : oe_exception_record) : DispatchOutcome :=
  let res := h r (hp r.context)
  let hp2 := heap_update hp r.context res.2
  if res.1 = OE_EXCEPTION_CONTINUE_EXECUTION then .resume (hp2 r.context) hp2
  else if res.1 = OE_EXCEPTION_CONTINUE_SEARCH then .continueSearch hp2
  else .abortExecution hp2

/-- On a continue-execution verdict the dispatcher resumes with exactly
the context the handler produced, written back through the record's
context reference. -/
theorem invoke_handler_continue_execution (h : Handler) (hp : ContextHeap)
    (r : oe_exception_record) (c2 : oe_context)
    (hc : h r (hp r.context) = (OE_EXCEPTION_CONTINUE_EXECUTION, c2)) :
    invoke_handler h hp r = .resume c2 (heap_update hp r.context c2) := by
  simp only [invoke_handler]
  rw [hc]
  simp [heap_update]

/-- Invoking a handler leaves every context other than the one the
record references unchanged. -/
theorem invoke_handler_frame (h : Handler) (hp : ContextHeap)
    (r : oe_exception_record) (x : Nat) (hx : x ≠ r.context) :
    (invoke_handler h hp r).heap x = hp x := by
  simp only [invoke_handler]
  split
  · simp [DispatchOutcome.heap, heap_update, hx]
  · split <;> simp [DispatchOutcome.heap, heap_update, hx]

/-- C9: the built record holds the reference to the single register
context (the address the builder received, not a second copy); a
handler observes only the context reached through that reference, its
repair of the context is exactly what a continue-execution resume
restores, and every other context is untouched. -/
theorem C9_record_references_context (capability opted_in : Bool)
    (raw : RawTrapPayload) (a : Nat) (r : oe_exception_record)
    (hb : build_record capability opted_in raw a = some r) :
    r.context = a ∧
    (∀ (h : Handler) (hp : ContextHeap) (c2 : oe_context),
      h r (hp a) = (OE_EXCEPTION_CONTINUE_EXECUTION, c2) →
      invoke_handler h hp r = .resume c2 (heap_update hp a c2)) ∧
    (∀ (h : Handler) (hp : ContextHeap) (x : Nat),
      x ≠ a → (invoke_handler h hp r).heap x = hp x) ∧
    (∀ (h : Handler) (hp1 hp2 : ContextHeap),
      hp1 a = hp2 a → h r (hp1 a) = h r (hp2 a)) := by
  unfold build_record at hb
  split at hb
  · simp only [Option.some.injEq] at hb
    subst hb
    refine ⟨rfl, ?_, ?_, ?_⟩
    · intro h hp c2 hc
      exact invoke_handler_continue_execution h hp _ c2 hc
    · intro h hp x hx
      exact invoke_handler_frame h hp _ x hx
    · intro h hp1 hp2 he
      rw [he]
  · exact absurd hb (by simp)

/-- Witness for C9 at a concrete built record. -/
theorem C9_record_references_context_witness :
    build_record true true ⟨0x0, 0x1, 0x20, 0, 0⟩ 5 =
      some ⟨OE_EXCEPTION_DIVIDE_BY_ZERO, 0x1, 0x20, none, 5⟩ ∧
    (⟨OE_EXCEPTION_DIVIDE_BY_ZERO, 0x1, 0x20, none, 5⟩ :
        oe_exception_record).context = 5 :=
  ⟨rfl, (C9_record_references_context true true ⟨0x0, 0x1, 0x20, 0, 0⟩ 5
      ⟨OE_EXCEPTION_DIVIDE_BY_ZERO, 0x1, 0x20, none, 5⟩ rfl).1⟩
